import Mathlib

/-!
Shallow embedding of the anime recommendation pipeline
(`backend/processing/{genre_jaccard_sim,reviewer_sentiment,svd,tfidf,adhoc,main}.py`)
and proofs about the frozen claims.

Modelling conventions:
* Python dicts for catalog records become the `Item` structure; a derived key
  that may be absent (`similarity`, `filter_score`, `top_words`) becomes an
  `Option` field, `none` meaning "key absent".
* Python float arithmetic on scores is modelled over `ℚ` (the cosine similarity
  functions, which involve square roots, are modelled over `ℝ`).
* In-place mutation of catalog records is modelled by state passing: a function
  that mutates `self.anime_data` returns the updated catalog alongside its
  result.
* Fallible code returns `Except PyError`; a raised Python exception that
  escapes the modelled function is `.error`.
-/

namespace Animate

/-- A catalog record (`final_anime_data.json` entry) with the fields the
pipeline reads.  `Episodes` holds the result of Python's `float(...)` parse of
the episode field: `none` models an unparseable value (Python `ValueError` /
`TypeError`, treated as no match by `AdHoc._filter_by_episodes`); a missing
key parses as `0`.  `similarity`, `filter_score` and `top_words` are the
derived keys attached by the pipeline stages; `none` means the key is absent. -/
structure Item where
  Name : String
  Genres : String
  Synopsis : String
  Episodes : Option ℚ
  Rating : String
  Studios : String
  anime_id : ℤ
  similarity : Option ℚ
  filter_score : Option ℚ
  top_words : Option String
deriving DecidableEq, Repr

/-- The Python exceptions that the modelled code can raise. -/
inductive PyError where
  | typeError
  | indexError
deriving DecidableEq, Repr

/-- Python's `s.split(',')` over the character list: split at every comma,
keeping empty fragments (`''.split(',') == ['']`). -/
def splitCommaAux (cs : List Char) (acc : List Char) : List (List Char) :=
  match cs with
  | [] => [acc.reverse]
  | c :: rest =>
    if c = ',' then acc.reverse :: splitCommaAux rest []
    else splitCommaAux rest (c :: acc)

/-- Python's `str.strip()`: drop whitespace from both ends. -/
def trimChars (cs : List Char) : List Char :=
  ((cs.dropWhile Char.isWhitespace).reverse.dropWhile Char.isWhitespace).reverse

/-- `GenreJaccardSim` and `AdHoc._filter_by_genres` turn the comma-delimited
`Genres` string into tokens: `genre.strip() for genre in s.split(',')`. -/
def splitTrim (s : String) : List String :=
  (splitCommaAux s.data []).map (fun cs => String.mk (trimChars cs))

/-- The tag set used by the Category stage:
`set(genre.strip() for genre in s.split(','))`. -/
def genreSet (s : String) : Finset String :=
  (splitTrim s).toFinset

/-- `GenreJaccardSim.jaccard_similarity` (genre_jaccard_sim.py:16-29):
`intersection / union if union > 0 else 0`. -/
def jaccardSim (s1 s2 : Finset String) : ℚ :=
  if 0 < (s1 ∪ s2).card then
    ((s1 ∩ s2).card : ℚ) / ((s1 ∪ s2).card : ℚ)
  else 0

/-- Effect of one iteration of the loop in
`GenreJaccardSim.get_similar_anime` (genre_jaccard_sim.py:51-59) on the
catalog record it visits: a record whose `Name` differs from the query title
and whose similarity reaches the threshold gets `anime['similarity']` written
on it in place; every other record is left as is. -/
def gjsUpdate (title : String) (tg : Finset String) (θ : ℚ) (a : Item) : Item :=
  if a.Name = title then a
  else if θ ≤ jaccardSim tg (genreSet a.Genres) then
    { a with similarity := some (jaccardSim tg (genreSet a.Genres)) }
  else a

/-- `GenreJaccardSim.get_similar_anime` (genre_jaccard_sim.py:31-61), with the
mutation of `self.anime_data` made explicit: the result is
`(returned list, catalog after the call)`.

* unknown title → returns `[]`, catalog untouched (lines 42-44);
* otherwise the loop appends every other record whose Jaccard similarity to
  the target's tag set reaches `θ`, annotated in place with its score, and
  finally appends `self.anime_data[target_idx]` itself (line 60).  An
  out-of-range index from the lookup would raise `IndexError`. -/
def getSimilarAnime (catalog : List Item) (animeToIndex : String → Option ℕ)
    (title : String) (θ : ℚ) : Except PyError (List Item × List Item) :=
  match animeToIndex title with
  | none => .ok ([], catalog)
  | some idx =>
    match catalog[idx]? with
    | none => .error .indexError
    | some tgt =>
      let tg := genreSet tgt.Genres
      let catalog' := catalog.map (gjsUpdate title tg θ)
      let pool :=
        ((catalog.filter (fun a => a.Name != title)).filter
            (fun a => decide (θ ≤ jaccardSim tg (genreSet a.Genres)))).map
          (fun a => { a with similarity := some (jaccardSim tg (genreSet a.Genres)) })
      match catalog'[idx]? with
      | none => .error .indexError
      | some t' => .ok (pool ++ [t'], catalog')

/-- The key Python uses for `index_to_anime_id.get(str(self.anime_to_index.get(anime['Name'])))`
(reviewer_sentiment.py:47): a failed name lookup yields `str(None) = "None"`. -/
def resolveKey (animeToIndex : String → Option ℕ) (name : String) : String :=
  match animeToIndex name with
  | some i => toString i
  | none => "None"

/-- `ReviewerSentiment.get_highly_rated_anime` (reviewer_sentiment.py:16-66).
The four lookup tables are modelled as functions; `.get(k, [])` on the
adjacency tables is the function itself, `.get(k)` on the index tables is an
`Option`.  Reviewer and anime identifiers are integers keyed by their decimal
string form, as in the JSON data. -/
def getHighlyRatedAnime (animeToReviewer : String → List ℤ)
    (reviewerToAnime : String → List ℤ) (animeToIndex : String → Option ℕ)
    (indexToAnimeId : String → Option ℤ) (title : String)
    (intermediate : List Item) : List Item :=
  if intermediate.isEmpty then []
  else
    match animeToIndex title with
    | none => []
    | some qIdx =>
      match indexToAnimeId (toString qIdx) with
      | none => []
      | some qId =>
        let queryReviewers := animeToReviewer (toString qId)
        let jaccardSet : Finset ℤ :=
          intermediate.foldl (fun s a =>
            match indexToAnimeId (resolveKey animeToIndex a.Name) with
            | some id => insert id s
            | none => s) ∅
        let highlyRated : Finset ℤ :=
          queryReviewers.foldl (fun s r => s ∪ (reviewerToAnime (toString r)).toFinset) ∅
        let finalIds := jaccardSet ∩ highlyRated
        intermediate.filter (fun a => decide (a.anime_id ∈ finalIds))

/-- The second constructor argument of `Svd.__init__` (svd.py:8): `main.py`
passes a title string, `adhoc.py` passes the dict `{"Synopsis": description}`. -/
inductive SvdTarget where
  | name (s : String)
  | dict (synopsis : String)
deriving DecidableEq, Repr

/-- `Svd.__init__` (svd.py:17-28).  Its body runs
`self.tfidf = TFIDF(anime_data, target_anime_data)` (svd.py:21), but
`TFIDF.__init__` accepts only `anime_data` (tfidf.py:8), so Python raises
`TypeError` for every call; the `except` clause prints and re-raises
(svd.py:26-28).  Construction therefore never succeeds, which is why the
success value has type `Empty`. -/
def svdInit (_animeData : List Item) (_target : SvdTarget) (_nComponents : ℕ) :
    Except PyError Empty :=
  .error .typeError

/-- The Dimensionality-Reduction stage as a caller invokes it
(adhoc.py:161-162): construct `Svd(...)`, then run `process_recs()`.
`process_recs` itself (svd.py:144-151) catches every exception and returns
`[]`, but it is only reachable on a successfully constructed object. -/
def svdStage (animeData : List Item) (target : SvdTarget) (nComponents : ℕ) :
    Except PyError (List Item) :=
  match svdInit animeData target nComponents with
  | .error e => .error e
  | .ok st => st.elim

/-- Python's stable `sorted(xs, key=lambda x: x['similarity'], reverse=True)`
(main.py:109).  Every record on this path carries the `similarity` key; the
`getD 0` default mirrors the `x.get('similarity', 0)` convention used by the
neighbouring sorts (svd.py:142, tfidf.py:158). -/
def sortBySimDesc (l : List Item) : List Item :=
  l.mergeSort (fun a b => (b.similarity.getD 0) ≤ (a.similarity.getD 0))

/-- Python's stable `sorted(xs, key=lambda x: x['filter_score'], reverse=True)`
(adhoc.py:156,166). -/
def sortByFilterScoreDesc (l : List Item) : List Item :=
  l.mergeSort (fun a b => (b.filter_score.getD 0) ≤ (a.filter_score.getD 0))

/-- `AnimeRecommender.get_recommendations` (main.py:81-109), the
reference-name entry point.  Stage 1 runs `GenreJaccardSim.get_similar_anime`;
an empty result returns `[]` (lines 92-93).  Otherwise the last element (the
query record itself) is stripped (line 98).  When at least two candidates
remain the code calls `Svd(svd_input)` — a `TypeError`, since
`Svd.__init__` requires a second positional argument — which the
`except` clause turns into the genre results sorted by similarity
(lines 107-109); fewer than two candidates are returned as they are
(line 105). -/
def animeGetRecommendations (catalog : List Item)
    (animeToIndex : String → Option ℕ) (title : String) :
    Except PyError (List Item) :=
  match getSimilarAnime catalog animeToIndex title (0.45 : ℚ) with
  | .error e => .error e
  | .ok (genreOut, _catalog') =>
    if genreOut.isEmpty then .ok []
    else
      let svdInput := genreOut.dropLast
      if 2 ≤ svdInput.length then .ok (sortBySimDesc svdInput)
      else .ok svdInput

/-- `AnimeRecommender.get_recommendations_from_description` (main.py:113-131),
the free-text entry point: appends the synthetic query record and calls
`Svd(modified_data, temp_anime['Name'])`, whose constructor raises (see
`svdInit`); there is no `try` here, so the exception propagates. -/
def getRecommendationsFromDescription (catalog : List Item) (description : String) :
    Except PyError (List Item) :=
  let tempAnime : Item :=
    { Name := "[QUERY]", Genres := "", Synopsis := description, Episodes := some 0,
      Rating := "", Studios := "", anime_id := -1,
      similarity := none, filter_score := none, top_words := none }
  let modifiedData := catalog ++ [tempAnime]
  match svdInit modifiedData (SvdTarget.name tempAnime.Name) 100 with
  | .error e => .error e
  | .ok st => st.elim

/-- `AdHoc._parse_episode_range` (adhoc.py:19-32).  The upper bound is
`none` for the `float('inf')` of the fallback `(0, float('inf'))`. -/
def parseEpisodeRange (r : String) : ℚ × Option ℚ :=
  match r with
  | "1001-4000" => (1001, some 4000)
  | "201-1000" => (201, some 1000)
  | "101-200" => (101, some 200)
  | "61-100" => (61, some 100)
  | "31-60" => (31, some 60)
  | "21-30" => (21, some 30)
  | "11-20" => (11, some 20)
  | "1-10" => (1, some 10)
  | _ => (0, none)

/-- The `for range_str in selected_ranges` loop of `AdHoc._filter_by_episodes`
(adhoc.py:50-60) with accumulator `best`.  A zero-width range returns `1.0`
from the whole function at once (line 55).  For the fallback range the upper
bound is `float('inf')`: its width is infinite (never zero) and
`position = episodes / inf == 0.0`, so the in-range match score is
`1 - abs(0 - 0.5) * 2 = 0`. -/
def episodeLoop (e : ℚ) : List String → ℚ → ℚ
  | [], best => best
  | r :: rest, best =>
    match parseEpisodeRange r with
    | (lo, some hi) =>
      if lo ≤ e ∧ e ≤ hi then
        if hi - lo = 0 then 1
        else episodeLoop e rest (max best (1 - |((e - lo) / (hi - lo)) - 0.5| * 2))
      else episodeLoop e rest best
    | (lo, none) =>
      if lo ≤ e then episodeLoop e rest (max best (1 - |(0 : ℚ) - 0.5| * 2))
      else episodeLoop e rest best

/-- `AdHoc._filter_by_episodes` (adhoc.py:34-60). -/
def filterByEpisodes (a : Item) (selectedRanges : List String) : ℚ :=
  if selectedRanges.isEmpty then 1
  else
    match a.Episodes with
    | none => 0
    | some e => if e = 0 then 0 else episodeLoop e selectedRanges 0

/-- `AdHoc._filter_by_genres` (adhoc.py:62-72).  Note `''.split(',') == ['']`
in Python, so the `if not anime_genres` guard can never fire; it is kept for
faithfulness (`String.splitOn` likewise never returns `[]`). -/
def filterByGenres (a : Item) (selectedGenres : List String) : ℚ :=
  if selectedGenres.isEmpty then 1
  else
    let animeGenres := splitTrim a.Genres
    if animeGenres.isEmpty then 0
    else (selectedGenres.countP (fun g => animeGenres.contains g) : ℚ) / (selectedGenres.length : ℚ)

/-- `AdHoc._filter_by_studios` (adhoc.py:74-84). -/
def filterByStudios (a : Item) (selectedStudios : List String) : ℚ :=
  if selectedStudios.isEmpty then 1
  else
    let animeStudios := splitTrim a.Studios
    if animeStudios.isEmpty then 0
    else (selectedStudios.countP (fun s => animeStudios.contains s) : ℚ) / (selectedStudios.length : ℚ)

/-- `AdHoc._filter_by_rating` (adhoc.py:86-95); the empty string is falsy. -/
def filterByRating (a : Item) (selectedRatings : List String) : ℚ :=
  if selectedRatings.isEmpty then 1
  else if a.Rating = "" then 0
  else if selectedRatings.contains a.Rating then 1 else 0

/-- The first pass of `AdHoc.get_recommendations` (adhoc.py:134-149): keep an
item iff all four family scores are `> 0`, writing
`anime['filter_score'] = mean of the four scores` on the kept copy (the
`AdHoc` constructor deep-copied the catalog, adhoc.py:15, so the caller's
records are untouched and the function is modelled as pure). -/
def adhocFirstPass (catalog : List Item) (genres episodes studios ratings : List String) :
    List Item :=
  catalog.filterMap (fun a =>
    let es := filterByEpisodes a episodes
    let gs := filterByGenres a genres
    let ss := filterByStudios a studios
    let rs := filterByRating a ratings
    if 0 < es ∧ 0 < gs ∧ 0 < ss ∧ 0 < rs then
      some { a with filter_score := some ((es + gs + ss + rs) / 4) }
    else none)

/-- The score combination of adhoc.py:174:
`max(0.55 * similarity + 0.45 * filter_score, similarity)`. -/
def blendScore (similarity filterScore : ℚ) : ℚ :=
  max (0.55 * similarity + 0.45 * filterScore) similarity

/-- `AdHoc.get_recommendations` (adhoc.py:97-177).  With no (or an empty,
falsy) description the filtered items are returned sorted by
`filter_score` (line 156).  With a description the code constructs
`Svd(filtered_anime, {"Synopsis": description}, n_components=60)`
(lines 160-161), whose constructor raises `TypeError` (see `svdInit`);
there is no `try` in this method, so the exception propagates and the
blending loop of lines 164-177 is unreachable (hence the vacuous `.ok`
branch). -/
def adhocGetRecommendations (catalog : List Item)
    (genres episodes studios ratings : List String) (description : Option String) :
    Except PyError (List Item) :=
  let filtered := adhocFirstPass catalog genres episodes studios ratings
  match description with
  | none => .ok (sortByFilterScoreDesc filtered)
  | some d =>
    if d = "" then .ok (sortByFilterScoreDesc filtered)
    else
      match svdInit filtered (SvdTarget.dict d) 60 with
      | .error e => .error e
      | .ok st => st.elim

/-- `np.dot(current_vector, reference_vector)` (svd.py:120, tfidf.py:126). -/
def dotv {n : ℕ} (u v : Fin n → ℝ) : ℝ :=
  ∑ i, u i * v i

/-- `np.linalg.norm` (svd.py:121-122, tfidf.py:127-128): the Euclidean norm. -/
noncomputable def normv {n : ℕ} (v : Fin n → ℝ) : ℝ :=
  Real.sqrt (∑ i, (v i) ^ 2)

open Classical in
/-- The per-pair cosine similarity of
`Svd.calculate_cosine_similarity_with_query` (svd.py:120-123):
`dot / (nc * nr) if (nc * nr) != 0 else 0`. -/
noncomputable def cosineSimSvd {n : ℕ} (u v : Fin n → ℝ) : ℝ :=
  if normv u * normv v ≠ 0 then dotv u v / (normv u * normv v) else 0

open Classical in
/-- The per-pair cosine similarity of
`TFIDF.calculate_cosine_similarity_with_last_row` (tfidf.py:126-134):
`0` if either norm is zero, else `dot / (nc * nr)`. -/
noncomputable def cosineSimTfidf {n : ℕ} (u v : Fin n → ℝ) : ℝ :=
  if normv u = 0 ∨ normv v = 0 then 0 else dotv u v / (normv u * normv v)

/-- All fields of an `Item` except the derived `similarity` annotation;
used to state which parts of a catalog record a stage leaves unchanged. -/
def baseOf (a : Item) :
    String × String × String × Option ℚ × String × String × ℤ × Option ℚ × Option String :=
  (a.Name, a.Genres, a.Synopsis, a.Episodes, a.Rating, a.Studios, a.anime_id,
   a.filter_score, a.top_words)

/-- A two-item demonstration catalog: both records carry the single tag
`Action`, so their Jaccard similarity is `1`. -/
def demoA : Item :=
  { Name := "A", Genres := "Action", Synopsis := "a show", Episodes := some 12,
    Rating := "PG-13", Studios := "S1", anime_id := 1,
    similarity := none, filter_score := none, top_words := none }

/-- Second demonstration record; see `demoA`. -/
def demoB : Item :=
  { Name := "B", Genres := "Action", Synopsis := "another show", Episodes := some 24,
    Rating := "PG-13", Studios := "S2", anime_id := 2,
    similarity := none, filter_score := none, top_words := none }

/-- `demoB` as the Category stage returns it: annotated with similarity `1`. -/
def demoBAnn : Item :=
  { demoB with similarity := some 1 }

/-- Demonstration catalog owned by the recommender. -/
def demoCatalog : List Item := [demoA, demoB]

/-- Demonstration name→index lookup: only `"A"` resolves. -/
def demoIndex (s : String) : Option ℕ :=
  if s = "A" then some 0 else none

/-- Demonstration item with exactly 10 episodes, for the episode-bucket
boundary scenario. -/
def demoTen : Item :=
  { Name := "T", Genres := "Action", Synopsis := "ten episodes", Episodes := some 10,
    Rating := "PG-13", Studios := "S1", anime_id := 3,
    similarity := none, filter_score := none, top_words := none }

/-- Demonstration item-to-reviewer table: no reviewer rated anything highly. -/
def demoAR : String → List ℤ := fun _ => []

/-- Demonstration reviewer-to-item table: empty. -/
def demoRA : String → List ℤ := fun _ => []

/-- Demonstration index-to-identifier table: every position maps to id 1. -/
def demoII : String → Option ℤ := fun _ => some 1

/-- Demonstration one-dimensional vector with norm 1, for the cosine
similarity witness. -/
def exVec : Fin 1 → ℝ := fun _ => 1

/-! Helper lemmas (shared evaluation facts about the demonstration data). -/

/-- The tag string `"Action"` parses to the singleton tag set. -/
theorem genreSet_action : genreSet ("Action") = {"Action"} := by decide

/-- Jaccard similarity of the demo tag set with itself is `1`. -/
theorem jaccardSim_action_self :
    jaccardSim (genreSet ("Action")) (genreSet ("Action")) = 1 := by
  simp [jaccardSim, genreSet_action]

/-- Concrete run of the Category stage on the demonstration catalog: the
returned list is the annotated candidate `demoBAnn` followed by the target
record `demoA`, and the catalog afterwards holds the mutated record. -/
theorem getSimilarAnime_demo :
    getSimilarAnime demoCatalog demoIndex ("A") (0.45 : ℚ) =
      Except.ok ([demoBAnn, demoA], [demoA, demoBAnn]) := by
  norm_num [getSimilarAnime, demoIndex, demoCatalog, gjsUpdate, demoA, demoB, demoBAnn,
    jaccardSim_action_self, List.filter]
  exact fun h => absurd h (by decide)

/-! Claim theorems. -/

/-- C3: for every reference name missing from the name-to-index lookup the
reference-based entry point returns an empty list without raising, and the
Category stage returns an empty pool without raising; the description-based
entry point, however, always raises `TypeError` (the `Svd` constructor calls
`TFIDF` with two arguments while `TFIDF.__init__` accepts one), so the code
diverges from the claim on that path. -/
theorem claim_C3 :
    (∀ (catalog : List Item) (animeToIndex : String → Option ℕ) (title : String),
      animeToIndex title = none →
      animeGetRecommendations catalog animeToIndex title = Except.ok [])
    ∧ (∀ (catalog : List Item) (description : String),
      getRecommendationsFromDescription catalog description =
        Except.error PyError.typeError)
    ∧ (∀ (catalog : List Item) (animeToIndex : String → Option ℕ) (title : String) (θ : ℚ),
      animeToIndex title = none →
      getSimilarAnime catalog animeToIndex title θ = Except.ok ([], catalog)) := by
  refine ⟨?_, ?_, ?_⟩
  · intro catalog ix title h
    simp [animeGetRecommendations, getSimilarAnime, h]
  · intro catalog description
    rfl
  · intro catalog ix title θ h
    simp [getSimilarAnime, h]

/-- Witness for `claim_C3` at a concrete unresolvable name. -/
theorem claim_C3_witness :
    animeGetRecommendations demoCatalog demoIndex ("Z") = Except.ok []
    ∧ getRecommendationsFromDescription demoCatalog ("dark fantasy") =
        Except.error PyError.typeError
    ∧ getSimilarAnime demoCatalog demoIndex ("Z") (0.45 : ℚ) =
        Except.ok ([], demoCatalog) :=
  ⟨claim_C3.1 demoCatalog demoIndex ("Z") (by decide),
   claim_C3.2.1 demoCatalog ("dark fantasy"),
   claim_C3.2.2 demoCatalog demoIndex ("Z") (0.45 : ℚ) (by decide)⟩

/-- C4: invoking the Dimensionality-Reduction stage (constructing `Svd` and
running `process_recs`) raises `TypeError` for every input, because
`Svd.__init__` calls `TFIDF` with two arguments while `TFIDF.__init__`
accepts only the item list; the `except` clause in the constructor re-raises
(svd.py:26-28), so the exception propagates to the caller instead of being
converted into an empty result. -/
theorem claim_C4 :
    ∀ (animeData : List Item) (target : SvdTarget) (nComponents : ℕ),
      svdStage animeData target nComponents = Except.error PyError.typeError :=
  fun _ _ _ => rfl

/-- C5: an item with exactly 10 episodes under the single selected bucket
`"1-10"` receives the triangular score `1 - |(10-1)/(10-1) - 0.5| * 2`
(which evaluates to `0`), the bucket parses to the inclusive range `[1, 10]`,
and the boundary count `10` satisfies the in-range test of adhoc.py:52. -/
theorem claim_C5 :
    filterByEpisodes demoTen ["1-10"] = 1 - |((10 : ℚ) - 1) / ((10 : ℚ) - 1) - 0.5| * 2
    ∧ parseEpisodeRange ("1-10") = (1, some 10)
    ∧ ((1 : ℚ) ≤ 10 ∧ (10 : ℚ) ≤ 10) := by
  refine ⟨?_, rfl, by norm_num, by norm_num⟩
  norm_num [filterByEpisodes, demoTen, episodeLoop, parseEpisodeRange]
  rw [abs_of_pos] <;> norm_num

/-- C6: the blend of adhoc.py:174 never drops below the raw latent
similarity (monotonic floor).  However, no item is ever returned by the
Ad-hoc path when a description is supplied: the `Svd` constructor raises
`TypeError` (see `svdInit`) before the blending loop, for every catalog and
filter combination. -/
theorem claim_C6 :
    (∀ similarity filterScore : ℚ, similarity ≤ blendScore similarity filterScore)
    ∧ (∀ (catalog : List Item) (genres episodes studios ratings : List String),
        adhocGetRecommendations catalog genres episodes studios ratings
          (some ("adventure")) = Except.error PyError.typeError) := by
  constructor
  · intro s f
    exact le_max_right _ _
  · intro catalog genres episodes studios ratings
    simp [adhocGetRecommendations, svdInit]

/-- C7: the Ad-hoc first pass keeps an item exactly when all four family
scores are strictly positive, annotating it with the arithmetic mean of the
four scores; with four empty selections every item is kept with aggregate
score `1`. -/
theorem claim_C7 :
    (∀ (catalog : List Item) (genres episodes studios ratings : List String),
      adhocFirstPass catalog genres episodes studios ratings =
        (catalog.filter (fun a =>
            decide (0 < filterByEpisodes a episodes ∧ 0 < filterByGenres a genres ∧
              0 < filterByStudios a studios ∧ 0 < filterByRating a ratings))).map
          (fun a =>
            { a with filter_score := some ((filterByEpisodes a episodes +
                filterByGenres a genres + filterByStudios a studios +
                filterByRating a ratings) / 4) }))
    ∧ (∀ catalog : List Item,
      adhocFirstPass catalog [] [] [] [] =
        catalog.map (fun a => { a with filter_score := some 1 })) := by
  have key : ∀ (catalog : List Item) (genres episodes studios ratings : List String),
      adhocFirstPass catalog genres episodes studios ratings =
        (catalog.filter (fun a =>
            decide (0 < filterByEpisodes a episodes ∧ 0 < filterByGenres a genres ∧
              0 < filterByStudios a studios ∧ 0 < filterByRating a ratings))).map
          (fun a =>
            { a with filter_score := some ((filterByEpisodes a episodes +
                filterByGenres a genres + filterByStudios a studios +
                filterByRating a ratings) / 4) }) := by
    intro catalog genres episodes studios ratings
    induction catalog with
    | nil => rfl
    | cons a t ih =>
      by_cases h : 0 < filterByEpisodes a episodes ∧ 0 < filterByGenres a genres ∧
          0 < filterByStudios a studios ∧ 0 < filterByRating a ratings
      · simp only [adhocFirstPass, List.filterMap_cons] at ih ⊢
        simp [List.filter_cons, h, ih]
      · simp only [adhocFirstPass, List.filterMap_cons] at ih ⊢
        simp [List.filter_cons, h, ih]
  refine ⟨key, ?_⟩
  intro catalog
  rw [key]
  have h1 : (0 : ℚ) < 1 := by norm_num
  have hmean : ((1 : ℚ) + 1 + 1 + 1) / 4 = 1 := by norm_num
  simp [filterByEpisodes, filterByGenres, filterByStudios, filterByRating, h1, hmean]

/-- A `gjsUpdate` step can change only the `similarity` field of a record. -/
theorem baseOf_gjsUpdate (title : String) (tg : Finset String) (θ : ℚ) (a : Item) :
    baseOf (gjsUpdate title tg θ a) = baseOf a := by
  unfold gjsUpdate
  split_ifs <;> rfl

/-- Characterisation of `getSimilarAnime` when the name resolves and the
index is in range: the returned list is the annotated candidate pool followed
by the (possibly updated) record at the target index, and the catalog
afterwards is the pointwise `gjsUpdate` image. -/
theorem getSimilarAnime_ok_some (catalog : List Item) (ix : String → Option ℕ)
    (title : String) (θ : ℚ) (idx : ℕ) (tgt : Item)
    (h1 : ix title = some idx) (h2 : catalog[idx]? = some tgt) :
    getSimilarAnime catalog ix title θ =
      Except.ok
        ((((catalog.filter (fun a => a.Name != title)).filter
              (fun a => decide (θ ≤ jaccardSim (genreSet tgt.Genres) (genreSet a.Genres)))).map
            (fun a => { a with similarity := some (jaccardSim (genreSet tgt.Genres) (genreSet a.Genres)) }))
          ++ [gjsUpdate title (genreSet tgt.Genres) θ tgt],
         catalog.map (gjsUpdate title (genreSet tgt.Genres) θ)) := by
  simp only [getSimilarAnime, h1, List.getElem?_map, h2, Option.map_some']

/-- When the record at `idx` is the only one named `title`, filtering out
that name is the same as removing position `idx`. -/
theorem filter_ne_eq_eraseIdx :
    ∀ (l : List Item) (idx : ℕ) (tgt : Item) (title : String),
      l[idx]? = some tgt → tgt.Name = title →
      (∀ b ∈ l.eraseIdx idx, b.Name ≠ title) →
      l.filter (fun a => a.Name != title) = l.eraseIdx idx := by
  intro l
  induction l with
  | nil => intro idx tgt title h; simp at h
  | cons a t ih =>
    intro idx tgt title h1 h2 h3
    cases idx with
    | zero =>
      simp only [List.getElem?_cons_zero, Option.some.injEq] at h1
      subst h1
      simp only [List.eraseIdx_cons_zero] at h3 ⊢
      rw [List.filter_cons]
      have hfalse : (a.Name != title) = false := by
        simp [h2]
      rw [hfalse]
      simp only [Bool.false_eq_true, if_false]
      exact List.filter_eq_self.mpr (fun b hb => by simp [h3 b hb])
    | succ k =>
      simp only [List.getElem?_cons_succ] at h1
      simp only [List.eraseIdx_cons_succ] at h3 ⊢
      have ha : a.Name ≠ title := h3 a (List.mem_cons_self a _)
      rw [List.filter_cons]
      have htrue : (a.Name != title) = true := by simp [ha]
      rw [htrue]
      simp only [if_true]
      rw [ih k tgt title h1 h2 (fun b hb => h3 b (List.mem_cons_of_mem a hb))]

/-- Jaccard similarity of disjoint tag sets is zero. -/
theorem jaccardSim_disjoint {s1 s2 : Finset String} (h : Disjoint s1 s2) :
    jaccardSim s1 s2 = 0 := by
  unfold jaccardSim
  split_ifs with hc
  · rw [Finset.disjoint_iff_inter_eq_empty.mp h]
    simp
  · rfl

/-- Jaccard similarity is nonnegative. -/
theorem jaccardSim_nonneg (s1 s2 : Finset String) : 0 ≤ jaccardSim s1 s2 := by
  unfold jaccardSim
  split_ifs
  · positivity
  · exact le_refl 0

/-- Jaccard similarity is at most one. -/
theorem jaccardSim_le_one (s1 s2 : Finset String) : jaccardSim s1 s2 ≤ 1 := by
  unfold jaccardSim
  split_ifs with hc
  · rw [div_le_one (by exact_mod_cast hc)]
    exact_mod_cast Finset.card_le_card (Finset.inter_subset_union)
  · norm_num

/-- Jaccard similarity is one exactly for identical nonempty sets. -/
theorem jaccardSim_eq_one_iff (s1 s2 : Finset String) :
    jaccardSim s1 s2 = 1 ↔ s1 = s2 ∧ s1 ≠ ∅ := by
  unfold jaccardSim
  split_ifs with hc
  · constructor
    · intro h
      have hcast : ((s1 ∩ s2).card : ℚ) = ((s1 ∪ s2).card : ℚ) := by
        field_simp at h
        exact_mod_cast h
      have hcard : (s1 ∩ s2).card = (s1 ∪ s2).card := by exact_mod_cast hcast
      have hsub : s1 ∩ s2 = s1 ∪ s2 :=
        Finset.eq_of_subset_of_card_le Finset.inter_subset_union (le_of_eq hcard.symm)
      have h12 : s1 = s2 := by
        apply Finset.Subset.antisymm
        · intro x hx
          have : x ∈ s1 ∪ s2 := Finset.mem_union_left _ hx
          rw [← hsub] at this
          exact (Finset.mem_inter.mp this).2
        · intro x hx
          have : x ∈ s1 ∪ s2 := Finset.mem_union_right _ hx
          rw [← hsub] at this
          exact (Finset.mem_inter.mp this).1
      refine ⟨h12, ?_⟩
      intro hempty
      have h2e : s2 = ∅ := by rw [← h12]; exact hempty
      rw [hempty, h2e] at hc
      simp at hc
    · rintro ⟨h12, hne⟩
      subst h12
      rw [Finset.union_self] at hc ⊢
      rw [Finset.inter_self]
      exact div_self (Nat.cast_ne_zero.mpr hc.ne')
  · constructor
    · intro h; norm_num at h
    · rintro ⟨h12, hne⟩
      subst h12
      rw [Finset.union_self] at hc
      exact absurd (Finset.card_pos.mpr (Finset.nonempty_iff_ne_empty.mpr hne)) hc

/-- C1 counterexample: running the Category stage on the demonstration
catalog changes a catalog-owned record — `demoB` acquires
`similarity = 1` in place — so the shared catalog is not left unchanged,
contradicting the claim that annotations live only on copies. -/
theorem claim_C1_counterexample :
    getSimilarAnime demoCatalog demoIndex ("A") (0.45 : ℚ) =
      Except.ok ([demoBAnn, demoA], [demoA, demoBAnn])
    ∧ [demoA, demoBAnn] ≠ demoCatalog := by
  refine ⟨getSimilarAnime_demo, ?_⟩
  decide

/-- C1 amended: the Category stage writes the `similarity` annotation in
place on catalog-owned records; every other field of every catalog record is
preserved (the catalog after the call agrees with the catalog before on all
fields except possibly `similarity`, position by position). -/
theorem claim_C1_amended :
    ∀ (catalog : List Item) (animeToIndex : String → Option ℕ) (title : String) (θ : ℚ)
      (res cat' : List Item),
      getSimilarAnime catalog animeToIndex title θ = Except.ok (res, cat') →
      ∀ j : ℕ, cat'[j]?.map baseOf = catalog[j]?.map baseOf := by
  intro catalog ix title θ res cat' h j
  cases hix : ix title with
  | none =>
    simp only [getSimilarAnime, hix, Except.ok.injEq, Prod.mk.injEq] at h
    rw [← h.2]
  | some idx =>
    cases hg : catalog[idx]? with
    | none =>
      simp only [getSimilarAnime, hix, hg] at h
      exact Except.noConfusion h
    | some tgt =>
      rw [getSimilarAnime_ok_some catalog ix title θ idx tgt hix hg] at h
      have hcat : cat' = catalog.map (gjsUpdate title (genreSet tgt.Genres) θ) := by
        have := (Except.ok.injEq _ _).mp h
        exact ((Prod.mk.injEq _ _ _ _).mp this |>.2).symm
      rw [hcat, List.getElem?_map]
      cases catalog[j]? with
      | none => rfl
      | some b => simp [baseOf_gjsUpdate]

/-- Witness for `claim_C1_amended` at the demonstration run. -/
theorem claim_C1_witness :
    ([demoA, demoBAnn] : List Item)[1]?.map baseOf = demoCatalog[1]?.map baseOf :=
  claim_C1_amended demoCatalog demoIndex ("A") (0.45 : ℚ) [demoBAnn, demoA]
    [demoA, demoBAnn] getSimilarAnime_demo 1

/-- C2: for a resolvable reference whose name is unique in the catalog, the
candidate pool (the returned list without its final element) is exactly the
other catalog items whose tag-set Jaccard similarity to the reference
reaches the threshold, each annotated with that similarity; the reference
record itself is returned as the final element and is not in the pool. -/
theorem claim_C2 :
    ∀ (catalog : List Item) (animeToIndex : String → Option ℕ) (title : String) (θ : ℚ)
      (idx : ℕ) (tgt : Item),
      animeToIndex title = some idx →
      catalog[idx]? = some tgt →
      tgt.Name = title →
      (∀ b ∈ catalog.eraseIdx idx, b.Name ≠ title) →
      ∃ res cat', getSimilarAnime catalog animeToIndex title θ = Except.ok (res, cat')
        ∧ res.dropLast =
            ((catalog.eraseIdx idx).filter
                (fun a => decide (θ ≤ jaccardSim (genreSet tgt.Genres) (genreSet a.Genres)))).map
              (fun a => { a with similarity := some (jaccardSim (genreSet tgt.Genres) (genreSet a.Genres)) })
        ∧ res.getLast? = some tgt
        ∧ tgt ∉ res.dropLast := by
  intro catalog ix title θ idx tgt h1 h2 h3 h4
  have hupd : gjsUpdate title (genreSet tgt.Genres) θ tgt = tgt := by
    unfold gjsUpdate
    rw [if_pos h3]
  have hpool := filter_ne_eq_eraseIdx catalog idx tgt title h2 h3 h4
  refine ⟨_, _, getSimilarAnime_ok_some catalog ix title θ idx tgt h1 h2, ?_, ?_, ?_⟩
  · rw [List.dropLast_concat, hpool]
  · rw [List.getLast?_concat, hupd]
  · rw [List.dropLast_concat, hpool]
    intro hmem
    obtain ⟨a, ha, haeq⟩ := List.mem_map.mp hmem
    have : a.Name ≠ title := h4 a (List.mem_filter.mp ha).1
    apply this
    have : tgt.Name = a.Name := by rw [← haeq]
    rw [h3] at this
    exact this.symm

/-- Witness for `claim_C2` at the demonstration catalog. -/
theorem claim_C2_witness :
    ∃ res cat', getSimilarAnime demoCatalog demoIndex ("A") (0.45 : ℚ) = Except.ok (res, cat')
      ∧ res.dropLast =
          ((demoCatalog.eraseIdx 0).filter
              (fun a => decide ((0.45 : ℚ) ≤ jaccardSim (genreSet demoA.Genres) (genreSet a.Genres)))).map
            (fun a => { a with similarity := some (jaccardSim (genreSet demoA.Genres) (genreSet a.Genres)) })
      ∧ res.getLast? = some demoA
      ∧ demoA ∉ res.dropLast :=
  claim_C2 demoCatalog demoIndex ("A") (0.45 : ℚ) 0 demoA rfl rfl rfl (by decide)

/-- C8: the Collaborative stage output is a sub-sequence of the Stage-1
candidate pool (retained items are kept verbatim, so their Stage-1 scores are
preserved), and it is the empty list whenever the pool is empty, the title
does not resolve to an index, the index has no external identifier, or the
target has no highly-rating reviewers; all of these return normally. -/
theorem claim_C8 :
    ∀ (animeToReviewer reviewerToAnime : String → List ℤ)
      (animeToIndex : String → Option ℕ) (indexToAnimeId : String → Option ℤ)
      (title : String) (intermediate : List Item),
      (getHighlyRatedAnime animeToReviewer reviewerToAnime animeToIndex indexToAnimeId
          title intermediate).Sublist intermediate
      ∧ (intermediate = [] →
          getHighlyRatedAnime animeToReviewer reviewerToAnime animeToIndex indexToAnimeId
            title intermediate = [])
      ∧ (animeToIndex title = none →
          getHighlyRatedAnime animeToReviewer reviewerToAnime animeToIndex indexToAnimeId
            title intermediate = [])
      ∧ (∀ qIdx : ℕ, animeToIndex title = some qIdx →
          indexToAnimeId (toString qIdx) = none →
          getHighlyRatedAnime animeToReviewer reviewerToAnime animeToIndex indexToAnimeId
            title intermediate = [])
      ∧ (∀ (qIdx : ℕ) (qId : ℤ), animeToIndex title = some qIdx →
          indexToAnimeId (toString qIdx) = some qId →
          animeToReviewer (toString qId) = [] →
          getHighlyRatedAnime animeToReviewer reviewerToAnime animeToIndex indexToAnimeId
            title intermediate = []) := by
  intro tAR tRA tAI tII title intermediate
  refine ⟨?_, ?_, ?_, ?_, ?_⟩
  · unfold getHighlyRatedAnime
    split_ifs
    · exact List.nil_sublist _
    · split
      · exact List.nil_sublist _
      · split
        · exact List.nil_sublist _
        · exact List.filter_sublist _
  · intro h
    subst h
    rfl
  · intro h
    unfold getHighlyRatedAnime
    rw [h]
    split_ifs <;> rfl
  · intro qIdx h1 h2
    unfold getHighlyRatedAnime
    split_ifs
    · rfl
    · simp only [h1, h2]
  · intro qIdx qId h1 h2 h3
    unfold getHighlyRatedAnime
    split_ifs
    · rfl
    · simp [h1, h2, h3, Finset.inter_empty]

/-- Witness for `claim_C8` with concrete tables: target resolves but has no
highly-rating reviewers, so the stage returns the empty sub-sequence. -/
theorem claim_C8_witness :
    (getHighlyRatedAnime demoAR demoRA demoIndex demoII ("A") [demoB]).Sublist [demoB]
    ∧ getHighlyRatedAnime demoAR demoRA demoIndex demoII ("A") [demoB] = [] :=
  ⟨(claim_C8 demoAR demoRA demoIndex demoII ("A") [demoB]).1,
   (claim_C8 demoAR demoRA demoIndex demoII ("A") [demoB]).2.2.2.2 0 1 rfl rfl rfl⟩

/-- C9: the Category-stage Jaccard similarity lies in `[0, 1]`, equals `1`
exactly for identical nonempty tag sets, is `0` on disjoint tag sets, and
consequently no item whose tag set is disjoint from the reference tag set
appears in the candidate pool at any strictly positive threshold. -/
theorem claim_C9 :
    (∀ s1 s2 : Finset String, 0 ≤ jaccardSim s1 s2 ∧ jaccardSim s1 s2 ≤ 1)
    ∧ (∀ s1 s2 : Finset String, jaccardSim s1 s2 = 1 ↔ s1 = s2 ∧ s1 ≠ ∅)
    ∧ (∀ s1 s2 : Finset String, Disjoint s1 s2 → jaccardSim s1 s2 = 0)
    ∧ (∀ (catalog : List Item) (animeToIndex : String → Option ℕ) (title : String) (θ : ℚ)
        (idx : ℕ) (tgt : Item) (res cat' : List Item),
        0 < θ →
        animeToIndex title = some idx →
        catalog[idx]? = some tgt →
        getSimilarAnime catalog animeToIndex title θ = Except.ok (res, cat') →
        ∀ a' ∈ res.dropLast, ¬ Disjoint (genreSet tgt.Genres) (genreSet a'.Genres)) := by
  refine ⟨fun s1 s2 => ⟨jaccardSim_nonneg s1 s2, jaccardSim_le_one s1 s2⟩,
    jaccardSim_eq_one_iff, fun _ _ => jaccardSim_disjoint, ?_⟩
  intro catalog ix title θ idx tgt res cat' hθ h1 h2 hok a' hmem hdisj
  rw [getSimilarAnime_ok_some catalog ix title θ idx tgt h1 h2] at hok
  have hres : res = (((catalog.filter (fun a => a.Name != title)).filter
        (fun a => decide (θ ≤ jaccardSim (genreSet tgt.Genres) (genreSet a.Genres)))).map
      (fun a => { a with similarity := some (jaccardSim (genreSet tgt.Genres) (genreSet a.Genres)) }))
      ++ [gjsUpdate title (genreSet tgt.Genres) θ tgt] := by
    have := (Except.ok.injEq _ _).mp hok.symm
    exact (Prod.mk.injEq _ _ _ _).mp this |>.1
  rw [hres, List.dropLast_concat] at hmem
  obtain ⟨a, ha, haeq⟩ := List.mem_map.mp hmem
  have hsim : θ ≤ jaccardSim (genreSet tgt.Genres) (genreSet a.Genres) := by
    have := (List.mem_filter.mp ha).2
    exact of_decide_eq_true this
  have hgen : a'.Genres = a.Genres := by rw [← haeq]
  rw [hgen] at hdisj
  rw [jaccardSim_disjoint hdisj] at hsim
  exact absurd (lt_of_lt_of_le hθ hsim) (lt_irrefl 0)

/-- Witness for `claim_C9`: bounds at concrete tag sets, and the
demonstration run shows a pool member whose tags meet the reference tags. -/
theorem claim_C9_witness :
    (0 ≤ jaccardSim (genreSet ("Action")) (genreSet ("Romance"))
      ∧ jaccardSim (genreSet ("Action")) (genreSet ("Romance")) ≤ 1)
    ∧ ¬ Disjoint (genreSet demoA.Genres) (genreSet demoBAnn.Genres) :=
  ⟨claim_C9.1 (genreSet ("Action")) (genreSet ("Romance")),
   claim_C9.2.2.2 demoCatalog demoIndex ("A") (0.45 : ℚ) 0 demoA [demoBAnn, demoA]
     [demoA, demoBAnn] (by norm_num) rfl rfl getSimilarAnime_demo demoBAnn (by decide)⟩

/-- Cauchy-Schwarz for the embedded dot product and Euclidean norm. -/
theorem abs_dotv_le {n : ℕ} (u v : Fin n → ℝ) : |dotv u v| ≤ normv u * normv v := by
  have h1 : dotv u v ≤ normv u * normv v := by
    simpa [dotv, normv] using Real.sum_mul_le_sqrt_mul_sqrt Finset.univ u v
  have h2 : -(normv u * normv v) ≤ dotv u v := by
    have h := Real.sum_mul_le_sqrt_mul_sqrt Finset.univ (fun i => -u i) v
    simp only [neg_mul, Finset.sum_neg_distrib, neg_sq] at h
    have : -(dotv u v) ≤ normv u * normv v := by simpa [dotv, normv] using h
    linarith
  exact abs_le.mpr ⟨h2, h1⟩

/-- The demonstration vector has norm 1. -/
theorem normv_exVec : normv exVec = 1 := by
  simp [normv, exVec, Fin.sum_univ_one]

/-- C10: both embedded cosine similarity computations lie in `[-1, 1]`
whenever both vectors have nonzero norm, and both are defined to be `0`
when either norm vanishes — the functions are total, with no division by
zero. -/
theorem claim_C10 :
    ∀ {n : ℕ} (u v : Fin n → ℝ),
      (normv u ≠ 0 → normv v ≠ 0 →
        (-1 ≤ cosineSimSvd u v ∧ cosineSimSvd u v ≤ 1)
        ∧ (-1 ≤ cosineSimTfidf u v ∧ cosineSimTfidf u v ≤ 1))
      ∧ ((normv u = 0 ∨ normv v = 0) →
        cosineSimSvd u v = 0 ∧ cosineSimTfidf u v = 0) := by
  intro n u v
  constructor
  · intro hu hv
    have hupos : 0 < normv u := lt_of_le_of_ne (Real.sqrt_nonneg _) (Ne.symm hu)
    have hvpos : 0 < normv v := lt_of_le_of_ne (Real.sqrt_nonneg _) (Ne.symm hv)
    have hD : 0 < normv u * normv v := mul_pos hupos hvpos
    have habs : |dotv u v / (normv u * normv v)| ≤ 1 := by
      rw [abs_div, abs_of_pos hD]
      exact div_le_one_of_le₀ (abs_dotv_le u v) (le_of_lt hD)
    have hboth := abs_le.mp habs
    have hsvd : cosineSimSvd u v = dotv u v / (normv u * normv v) := by
      unfold cosineSimSvd
      rw [if_pos hD.ne']
    have htf : cosineSimTfidf u v = dotv u v / (normv u * normv v) := by
      unfold cosineSimTfidf
      rw [if_neg (by push_neg; exact ⟨hu, hv⟩)]
    rw [hsvd, htf]
    exact ⟨hboth, hboth⟩
  · intro h
    have hD : normv u * normv v = 0 := by
      rcases h with h | h <;> simp [h]
    constructor
    · unfold cosineSimSvd
      rw [if_neg (not_not_intro hD)]
    · unfold cosineSimTfidf
      rw [if_pos h]

/-- Witness for `claim_C10` at a concrete nonzero-norm vector. -/
theorem claim_C10_witness :
    (-1 ≤ cosineSimSvd exVec exVec ∧ cosineSimSvd exVec exVec ≤ 1)
    ∧ (-1 ≤ cosineSimTfidf exVec exVec ∧ cosineSimTfidf exVec exVec ≤ 1) :=
  (claim_C10 exVec exVec).1 (by rw [normv_exVec]; norm_num)
    (by rw [normv_exVec]; norm_num)

end Animate
